import Mathlib

/-!
Verification of the semantic-bookmarks repository against its specification.

The development shallowly embeds the data model and the operations of the
repository: the frontend TypeScript types and state stores, the SQL schema
with its cascade semantics, and the retrieval pipeline described in the
specification.  Components of the backend that are not part of the source
tree (chunker, indexer, hybrid search, vector similarity) are modelled from
the specification text; each such definition says so in its doc comment.
-/

/- ### Data model, from src/frontend/src/types/index.ts -/

/-- The Bookmark record consumed by the presentation layer, embedded from the
TypeScript interface Bookmark in src/frontend/src/types/index.ts.  Optional
TypeScript fields become Option, the free-form metadata map becomes an
association list. -/
structure Bookmark where
  id : String
  user_id : String
  url : String
  title : Option String
  description : Option String
  content : Option String
  platform : Option String
  meta_data : List (String × String)
  tags : List String
  is_public : Bool
  created_at : String
  updated_at : String
  relevance_score : Option ℚ

/-- The field names of the Bookmark interface in
src/frontend/src/types/index.ts, in declaration order. -/
def bookmarkFields : List String :=
  ["id", "user_id", "url", "title", "description", "content", "platform",
   "meta_data", "tags", "is_public", "created_at", "updated_at",
   "relevance_score"]

/-- The column names of the bookmarks table in src/database/init.sql, in
declaration order. -/
def bookmarksTableColumns : List String :=
  ["id", "user_id", "url", "title", "description", "content", "platform",
   "metadata", "tags", "is_public", "created_at", "updated_at"]

/-- The processing indicator shown by the diagnostics page
(src/unnamed/part_001): the label is Processed when the bookmark has at
least one embedding row and Pending otherwise. -/
def processingLabel (embedding_count : Nat) : String :=
  if 0 < embedding_count then "Processed" else "Pending"

/- ### Database rows and cascade semantics, from src/database/init.sql -/

/-- A row of the bookmarks table in src/database/init.sql. -/
structure BookmarkRow where
  id : String
  user_id : String
  url : String
  title : Option String
  description : Option String
  content : Option String
  platform : Option String
  metadata : List (String × String)
  tags : List String
  is_public : Bool
  created_at : String
  updated_at : String

/-- A row of the embeddings table in src/database/init.sql.  The embedding
column is the numeric vector, chunk_index the 0-based chunk position. -/
structure EmbeddingRow where
  id : String
  bookmark_id : String
  content_chunk : String
  embedding : List ℚ
  chunk_index : Nat
  created_at : String

/-- The persistent state relevant to chunk storage: the bookmarks table and
the embeddings table of src/database/init.sql. -/
structure Database where
  bookmarks : List BookmarkRow
  embeddings : List EmbeddingRow

/-- Deleting a bookmark row by id.  The embeddings table declares
bookmark_id REFERENCES bookmarks(id) ON DELETE CASCADE, so the delete also
removes every embedding row whose bookmark_id matches. -/
def dbDeleteBookmark (db : Database) (bid : String) : Database :=
  { bookmarks := db.bookmarks.filter (fun b => !(b.id == bid)),
    embeddings := db.embeddings.filter (fun e => !(e.bookmark_id == bid)) }

/-- The entries of the vector index idx_embeddings_vector: one per row of
the embeddings table. -/
def vectorIndexEntries (db : Database) : List EmbeddingRow :=
  db.embeddings

/-- The entries of the lexical full-text index idx_bookmarks_fts: one per
row of the bookmarks table, identified here by the row id. -/
def lexicalIndexEntries (db : Database) : List String :=
  db.bookmarks.map (fun b => b.id)

/-- The chunk indices stored for one bookmark. -/
def chunkIndicesFor (db : Database) (bid : String) : List Nat :=
  (db.embeddings.filter (fun e => e.bookmark_id == bid)).map
    (fun e => e.chunk_index)

/-- Modelled from the spec: the Indexer (section 4.5) is not under src/.
Within one persistence call it deletes any existing chunks for the bookmark
and inserts the new set; the chunks arrive from the Chunker as an ordered
sequence, so the stored chunk_index values are the positions 0, 1, ... of
that sequence. -/
def persistChunks (db : Database) (bid : String) (chunks : List String) :
    Database :=
  { bookmarks := db.bookmarks,
    embeddings :=
      db.embeddings.filter (fun e => !(e.bookmark_id == bid)) ++
        chunks.enum.map (fun p =>
          { id := bid, bookmark_id := bid, content_chunk := p.2,
            embedding := [], chunk_index := p.1, created_at := "" }) }

/- ### Hybrid search pipeline, modelled from the spec (section 4.6) -/

/-- Maximum of two rational scores, written with an explicit comparison so
that it reduces on concrete inputs. -/
def maxQ (a b : ℚ) : ℚ := if a ≤ b then b else a

/-- Modelled from the spec: the adaptive-threshold policy of smart search
(section 4.6 step 6) is not under src/; the bands are documented in the
SearchBar component comment and in the spec.  With best the highest fused
score: above 0.70 keep only scores within a tight band of best, between
0.40 and 0.70 keep scores above a moderate fraction of best, below 0.40
keep everything. -/
def keepScore (best s : ℚ) : Bool :=
  if 7/10 < best then decide (best - 3/20 ≤ s)
  else if 2/5 ≤ best then decide (best * (7/10) ≤ s)
  else true

/-- Modelled from the spec: adaptive thresholding applied to a list of
fused scores. -/
def adaptiveThreshold (scores : List ℚ) : List ℚ :=
  scores.filter (keepScore (scores.foldr maxQ 0))

/-- A chunk-level vector match: the owning bookmark and the similarity
score of the chunk. -/
structure ChunkMatch where
  bookmark_id : String
  score : ℚ

/-- Insert one chunk match into a bookmark-level score list, keeping the
maximum score per bookmark. -/
def insertMax (m : ChunkMatch) : List (String × ℚ) → List (String × ℚ)
  | [] => [(m.bookmark_id, m.score)]
  | (b, s) :: rest =>
      if b == m.bookmark_id then (b, maxQ s m.score) :: rest
      else (b, s) :: insertMax m rest

/-- Modelled from the spec: step 4 of the search algorithm collapses
chunk-level matches to bookmark level, keeping the maximum chunk score per
bookmark. -/
def collapseMax (ms : List ChunkMatch) : List (String × ℚ) :=
  ms.foldl (fun acc m => insertMax m acc) []

/-- Score of a bookmark in a score list, 0 when absent. -/
def lookupScore (b : String) (l : List (String × ℚ)) : ℚ :=
  match l.find? (fun p => p.1 == b) with
  | some p => p.2
  | none => 0

/-- Modelled from the spec: step 5 fuses the per-bookmark vector score and
lexical score into one relevance value by a weighted sum with tunable
weights; a bookmark missing from one source contributes 0 there. -/
def fuseScores (wv wl : ℚ) (vec lex : List (String × ℚ)) :
    List (String × ℚ) :=
  vec.map (fun p => (p.1, wv * p.2 + wl * lookupScore p.1 lex)) ++
    (lex.filter (fun p => !(vec.any (fun q => q.1 == p.1)))).map
      (fun p => (p.1, wl * p.2))

/-- Modelled from the spec: adaptive thresholding on bookmark and score
pairs, with best taken over the fused scores of the candidates. -/
def adaptiveThresholdPairs (ps : List (String × ℚ)) : List (String × ℚ) :=
  ps.filter (fun p => keepScore ((ps.map (fun q => q.2)).foldr maxQ 0) p.2)

/-- Insertion into a list sorted by descending score. -/
def insertDesc (x : String × ℚ) : List (String × ℚ) → List (String × ℚ)
  | [] => [x]
  | y :: ys => if y.2 ≤ x.2 then x :: y :: ys else y :: insertDesc x ys

/-- Sort bookmark and score pairs by descending score. -/
def sortDesc (l : List (String × ℚ)) : List (String × ℚ) :=
  l.foldr insertDesc []

/-- The search response shape of the SearchResult interface in
src/frontend/src/types/index.ts: ranked bookmarks, a total, and the query
text; bookmarks are represented here by id and fused score. -/
structure SearchResultModel where
  bookmarks : List (String × ℚ)
  total : Nat
  query : String

/-- Modelled from the spec: the Hybrid Search Engine (section 4.6) is not
under src/.  Given the chunk-level vector matches and the lexical matches
for a query it collapses, fuses, thresholds and sorts, and always answers
with a successful result whose total is the number of ranked bookmarks. -/
def hybridSearch (wv wl : ℚ) (q : String) (vecMatches : List ChunkMatch)
    (lexMatches : List (String × ℚ)) : Except String SearchResultModel :=
  let fused := fuseScores wv wl (collapseMax vecMatches) lexMatches
  let ranked := sortDesc (adaptiveThresholdPairs fused)
  Except.ok { bookmarks := ranked, total := ranked.length, query := q }

/- ### Frontend stores and search UI, from the zustand store and
SearchBar.tsx -/

/-- The bookmark store state of useBookmarkStore (second document of
src/database/init.sql): bookmark list, last search results, loading flag
and error message. -/
structure StoreState where
  bookmarks : List Bookmark
  searchResults : Option SearchResultModel
  isLoading : Bool
  error : Option String

/-- The deleteBookmark action of useBookmarkStore.  It first sets loading
and clears the error; on API success it keeps only the bookmarks whose id
differs; on API failure it records the error message and leaves the list
untouched. -/
def storeDeleteBookmark (bid : String) (outcome : Except String Unit)
    (st : StoreState) : StoreState :=
  let started := { st with isLoading := true, error := none }
  match outcome with
  | Except.ok _ =>
      { started with
        bookmarks := started.bookmarks.filter (fun b => !(b.id == bid)),
        isLoading := false }
  | Except.error e =>
      { started with error := some e, isLoading := false }

/-- The SearchBar component state together with the store fields it can
reach: the input text, the suggestion list and dropdown flag, and the
store search results and error. -/
structure SearchUIState where
  query : String
  suggestions : List String
  showSuggestions : Bool
  searchResults : Option SearchResultModel
  storeError : Option String

/-- The fetchSuggestions effect of SearchBar.tsx.  For queries longer than
two characters it stores the fetched suggestions and opens the dropdown;
on a fetch failure it silently empties the suggestion list; for short
queries it empties the list and closes the dropdown.  The store is never
touched. -/
def fetchSuggestionsStep (result : Except String (List String))
    (st : SearchUIState) : SearchUIState :=
  if 2 < st.query.length then
    match result with
    | Except.ok l => { st with suggestions := l, showSuggestions := true }
    | Except.error _ => { st with suggestions := [] }
  else
    { st with suggestions := [], showSuggestions := false }

/-- Whether a string trims to empty, the meaning of the JavaScript guard
that negates the trimmed string: true exactly when every character is
whitespace. -/
def isBlank (s : String) : Bool :=
  s.toList.all Char.isWhitespace

/-- The final query of handleSearch in SearchBar.tsx: the JavaScript
expression searchQuery or query falls back to the stored input both when
the argument is absent and when it is the empty string, because the empty
string is falsy. -/
def effectiveQuery (override : Option String) (st : SearchUIState) :
    String :=
  match override with
  | some s => if s = "" then st.query else s
  | none => st.query

/-- The handleSearch handler of SearchBar.tsx.  When the final query trims
to empty it returns without any request; otherwise it runs the store
search, which on success stores the results, clears the error and closes
the dropdown, and on failure records the error message.  The boolean
reports whether a search request was made. -/
def handleSearchStep (override : Option String)
    (outcome : Except String SearchResultModel) (st : SearchUIState) :
    SearchUIState × Bool :=
  let fq := effectiveQuery override st
  if isBlank fq then (st, false)
  else
    match outcome with
    | Except.ok r =>
        ({ st with searchResults := some r, storeError := none,
                   showSuggestions := false }, true)
    | Except.error e => ({ st with storeError := some e }, true)

/- ### Vector similarity, modelled from the spec (section 4.6 step 2) -/

/-- Dot product of two vectors given as lists, over the index range of the
first. -/
noncomputable def dotList (u v : List ℝ) : ℝ :=
  ∑ i ∈ Finset.range u.length, u.getD i 0 * v.getD i 0

/-- Squared euclidean norm of a vector given as a list. -/
noncomputable def normSqList (u : List ℝ) : ℝ :=
  ∑ i ∈ Finset.range u.length, (u.getD i 0) ^ 2

/-- Modelled from the spec: the vector-similarity lookup (section 4.6
step 2) is not under src/; the spec and the vector_cosine_ops index of
src/database/init.sql fix cosine similarity as the similarity measure.
The convention that a zero vector has similarity 0 follows from division
by zero. -/
noncomputable def cosineSim (u v : List ℝ) : ℝ :=
  dotList u v / (Real.sqrt (normSqList u) * Real.sqrt (normSqList v))

/- ### Chunker, modelled from the spec (section 4.2) -/

/-- Chunker configuration: the character budget of one chunk and the
number of trailing characters carried over the chunk boundary. -/
structure ChunkerConfig where
  maxChars : Nat
  overlap : Nat

/-- Paragraph boundaries: split on blank lines. -/
def splitParagraphs (text : String) : List String :=
  text.splitOn "\n\n"

/-- The trailing n characters of a string. -/
def lastChars (n : Nat) (s : String) : String :=
  String.mk (s.data.drop (s.data.length - n))

/-- Modelled from the spec: the Chunker (section 4.2) is not under src/.
Paragraphs are accumulated into the current chunk until the character
budget would be exceeded; then the chunk is emitted and the next one
starts with the configured number of trailing characters of the previous
chunk.  A paragraph larger than the budget becomes its own chunk. -/
def buildChunks (cfg : ChunkerConfig) : String → List String → List String
  | acc, [] => if acc = "" then [] else [acc]
  | acc, p :: ps =>
      let candidate := if acc = "" then p else acc ++ "\n\n" ++ p
      if candidate.length ≤ cfg.maxChars || acc = "" then
        buildChunks cfg candidate ps
      else
        acc :: buildChunks cfg (lastChars cfg.overlap acc ++ "\n\n" ++ p) ps

/-- Modelled from the spec: chunk(document) returns the ordered sequence
of (index, text) pairs; empty or whitespace-only documents yield the empty
sequence. -/
def chunkDoc (cfg : ChunkerConfig) (doc : String) : List (Nat × String) :=
  if isBlank doc then []
  else (buildChunks cfg "" (splitParagraphs doc)).enum

/- ### Concrete sample values used by witnesses and counterexamples -/

/-- A sample bookmark with a given id, other fields fixed. -/
def sampleBookmark (bid : String) : Bookmark :=
  { id := bid, user_id := "u1", url := "http://example.com",
    title := none, description := none, content := none, platform := none,
    meta_data := [], tags := [], is_public := false, created_at := "t0",
    updated_at := "t0", relevance_score := none }

/-- A sample bookmark table row with a given id, other fields fixed. -/
def sampleBookmarkRow (bid : String) : BookmarkRow :=
  { id := bid, user_id := "u1", url := "http://example.com",
    title := none, description := none, content := none, platform := none,
    metadata := [], tags := [], is_public := false, created_at := "t0",
    updated_at := "t0" }

/-- A sample embedding row for a given bookmark and chunk index. -/
def sampleEmbeddingRow (bid : String) (i : Nat) : EmbeddingRow :=
  { id := bid, bookmark_id := bid, content_chunk := "text",
    embedding := [], chunk_index := i, created_at := "t0" }

/-- A sample database with two bookmarks and three embedding rows. -/
def sampleDb : Database :=
  { bookmarks := [sampleBookmarkRow "b1", sampleBookmarkRow "b2"],
    embeddings := [sampleEmbeddingRow "b1" 0, sampleEmbeddingRow "b1" 1,
                   sampleEmbeddingRow "b2" 0] }

/-- A sample store state with two bookmarks. -/
def sampleStore : StoreState :=
  { bookmarks := [sampleBookmark "b1", sampleBookmark "b2"],
    searchResults := none, isLoading := false, error := none }

/-- A sample search UI state whose input text is a nonempty word. -/
def sampleUI : SearchUIState :=
  { query := "hello", suggestions := [], showSuggestions := false,
    searchResults := none, storeError := none }

/-- A sample search result value. -/
def sampleResult : SearchResultModel :=
  { bookmarks := [], total := 0, query := "hello" }

/- ### Claim theorems -/

/-- Claim C1, counterexample: the Bookmark record of the presentation
layer and the bookmarks table of the schema carry no processing status
field at all, so no bookmark record visible at the public interface
carries a status taking the seven pipeline values. -/
theorem bookmark_status_field_counterexample :
    bookmarkFields.contains "status" = false ∧
    bookmarksTableColumns.contains "status" = false := by
  exact ⟨by decide, by decide⟩

/-- Claim C1, amended: neither the presentation-layer Bookmark record nor
the bookmarks table has a status field; the only processing indicator the
interface exposes is the two-valued diagnostics label, Pending for a
bookmark without embedding rows and Processed as soon as it has one. -/
theorem bookmark_status_amended :
    bookmarkFields.contains "status" = false ∧
    bookmarksTableColumns.contains "status" = false ∧
    processingLabel 0 = "Pending" ∧
    ∀ n : Nat, processingLabel (n + 1) = "Processed" := by
  refine ⟨by decide, by decide, rfl, fun n => ?_⟩
  simp [processingLabel]

/-- Claim C2: the adaptive-threshold filter keeps exactly the first two
results of the excellent-band list [0.95, 0.92, 0.50, 0.10], exactly the
first two of the good-band list [0.60, 0.55, 0.20], and both entries of
the poor-band list [0.30, 0.10]. -/
theorem adaptiveThreshold_examples :
    adaptiveThreshold [0.95, 0.92, 0.50, 0.10] = [0.95, 0.92] ∧
    adaptiveThreshold [0.60, 0.55, 0.20] = [0.60, 0.55] ∧
    adaptiveThreshold [0.30, 0.10] = [0.30, 0.10] := by
  refine ⟨?_, ?_, ?_⟩ <;>
    norm_num [adaptiveThreshold, keepScore, maxQ, List.filter]

/-- Claim C3, counterexample: cosine similarity of the one-dimensional
vectors [1] and [-1] is -1, a similarity score outside the interval
[0, 1]. -/
theorem cosineSim_counterexample :
    cosineSim [(1:ℝ)] [(-1:ℝ)] = -1 ∧ cosineSim [(1:ℝ)] [(-1:ℝ)] < 0 := by
  have h : cosineSim [(1:ℝ)] [(-1:ℝ)] = -1 := by
    simp [cosineSim, dotList, normSqList, Finset.sum_range_one]
  exact ⟨h, by rw [h]; norm_num⟩

/-- Claim C3, amended: every cosine-similarity score of two vectors of the
same dimension lies in the closed interval [-1, 1]. -/
theorem cosineSim_bounds (u v : List ℝ) (h : u.length = v.length) :
    -1 ≤ cosineSim u v ∧ cosineSim u v ≤ 1 := by
  have hv : normSqList v = ∑ i ∈ Finset.range u.length, (v.getD i 0) ^ 2 := by
    rw [normSqList, h]
  have key : |dotList u v| ≤
      Real.sqrt (normSqList u) * Real.sqrt (normSqList v) := by
    rw [abs_le]
    constructor
    · have hneg := Real.sum_mul_le_sqrt_mul_sqrt (Finset.range u.length)
        (fun i => -(u.getD i 0)) (fun i => v.getD i 0)
      simp only [neg_mul, Finset.sum_neg_distrib, neg_sq] at hneg
      rw [dotList, normSqList, hv]
      linarith
    · have hpos := Real.sum_mul_le_sqrt_mul_sqrt (Finset.range u.length)
        (fun i => u.getD i 0) (fun i => v.getD i 0)
      rw [dotList, normSqList, hv]
      exact hpos
  have hden : (0:ℝ) ≤ Real.sqrt (normSqList u) * Real.sqrt (normSqList v) :=
    mul_nonneg (Real.sqrt_nonneg _) (Real.sqrt_nonneg _)
  rcases eq_or_lt_of_le hden with hz | hp
  · rw [cosineSim, ← hz, div_zero]
    norm_num
  · have habs : |cosineSim u v| ≤ 1 := by
      rw [cosineSim, abs_div, abs_of_pos hp, div_le_one hp]
      exact key
    exact abs_le.mp habs

/-- Claim C3, witness: the bounds instantiated at the concrete pair [1, 0]
and [0, 1]. -/
theorem cosineSim_bounds_witness :
    -1 ≤ cosineSim [(1:ℝ), 0] [(0:ℝ), 1] ∧
    cosineSim [(1:ℝ), 0] [(0:ℝ), 1] ≤ 1 :=
  cosineSim_bounds [(1:ℝ), 0] [(0:ℝ), 1] rfl

/-- Claim C4: deleting a bookmark removes every embedding row that
references it, removes it from the lexical index scope, leaves the vector
index without any chunk of it, and keeps every chunk of every other
bookmark. -/
theorem delete_bookmark_cascades (db : Database) (bid : String) :
    (dbDeleteBookmark db bid).embeddings.countP
        (fun e => e.bookmark_id == bid) = 0 ∧
    (vectorIndexEntries (dbDeleteBookmark db bid)).countP
        (fun e => e.bookmark_id == bid) = 0 ∧
    (lexicalIndexEntries (dbDeleteBookmark db bid)).count bid = 0 ∧
    (∀ e ∈ db.embeddings, (e.bookmark_id == bid) = false →
        e ∈ (dbDeleteBookmark db bid).embeddings) := by
  have hemb : (dbDeleteBookmark db bid).embeddings.countP
      (fun e => e.bookmark_id == bid) = 0 := by
    rw [List.countP_eq_zero]
    intro a ha
    simp only [dbDeleteBookmark, List.mem_filter] at ha
    simpa using ha.2
  refine ⟨hemb, hemb, ?_, ?_⟩
  · rw [List.count_eq_zero]
    intro hmem
    rcases List.mem_map.mp hmem with ⟨b, hb, hid⟩
    simp only [dbDeleteBookmark, List.mem_filter] at hb
    rw [hid] at hb
    simpa using hb.2
  · intro e he h
    simp only [dbDeleteBookmark, List.mem_filter]
    exact ⟨he, by simp [h]⟩

/-- Claim C4, witness: the cascade instantiated on a concrete database
with two bookmarks and three embedding rows. -/
theorem delete_bookmark_cascades_witness :
    (dbDeleteBookmark sampleDb "b1").embeddings.countP
        (fun e => e.bookmark_id == "b1") = 0 ∧
    (lexicalIndexEntries (dbDeleteBookmark sampleDb "b1")).count "b1" = 0 :=
  ⟨(delete_bookmark_cascades sampleDb "b1").1,
   (delete_bookmark_cascades sampleDb "b1").2.2.1⟩

/-- Claim C5: after a persistence call for a bookmark, the stored chunk
indices of that bookmark are exactly 0, 1, ..., n-1 where n is the number
of chunks, with no gaps and no duplicates; this holds for every starting
database, hence after every index and re-index. -/
theorem persist_chunk_indices_contiguous (db : Database) (bid : String)
    (cs : List String) :
    chunkIndicesFor (persistChunks db bid cs) bid = List.range cs.length := by
  unfold chunkIndicesFor persistChunks
  rw [List.filter_append, List.map_append]
  have h1 : (db.embeddings.filter (fun e => !(e.bookmark_id == bid))).filter
      (fun e => e.bookmark_id == bid) = [] := by
    rw [List.filter_filter]
    simp
  have h2 : ((cs.enum.map (fun p =>
      EmbeddingRow.mk bid bid p.2 [] p.1 "")).filter
        (fun e => e.bookmark_id == bid)) =
      cs.enum.map (fun p => EmbeddingRow.mk bid bid p.2 [] p.1 "") := by
    apply List.filter_eq_self.mpr
    intro a ha
    rcases List.mem_map.mp ha with ⟨p, _, rfl⟩
    simp
  rw [h1, h2, List.map_map]
  have h3 : ((fun e : EmbeddingRow => e.chunk_index) ∘
      (fun p : Nat × String => EmbeddingRow.mk bid bid p.2 [] p.1 "")) =
      Prod.fst := rfl
  rw [h3, List.enum_map_fst]
  rfl

/-- Claim C6: when fetching suggestions fails, the suggestion list becomes
empty and the store, in particular its search results and its error
message, is untouched: the failure never surfaces to the user. -/
theorem suggestions_failure_swallowed (e : String) (st : SearchUIState) :
    (fetchSuggestionsStep (Except.error e) st).suggestions = [] ∧
    (fetchSuggestionsStep (Except.error e) st).searchResults =
      st.searchResults ∧
    (fetchSuggestionsStep (Except.error e) st).storeError = st.storeError := by
  unfold fetchSuggestionsStep
  by_cases h : 2 < st.query.length <;> simp [h]

/-- Claim C7: a query for which both the vector search and the lexical
search return no candidates yields a successful search result carrying an
empty ranked list and total 0, never an error. -/
theorem empty_candidates_success (wv wl : ℚ) (q : String) :
    hybridSearch wv wl q [] [] =
      Except.ok { bookmarks := [], total := 0, query := q } := rfl

/-- Claim C8: the chunker is a pure function of document and
configuration, so two runs on the same document under the same
configuration produce the same ordered sequence of (index, text) pairs. -/
theorem chunker_deterministic (cfg : ChunkerConfig) (d₁ d₂ : String)
    (h : d₁ = d₂) : chunkDoc cfg d₁ = chunkDoc cfg d₂ := by
  rw [h]

/-- Claim C8, witness: determinism instantiated on a concrete two-
paragraph document. -/
theorem chunker_deterministic_witness :
    ("alpha\n\nbeta" : String) = "alpha\n\nbeta" ∧
    chunkDoc { maxChars := 8, overlap := 2 } "alpha\n\nbeta" =
      chunkDoc { maxChars := 8, overlap := 2 } "alpha\n\nbeta" :=
  ⟨rfl, chunker_deterministic { maxChars := 8, overlap := 2 } _ _ rfl⟩

/-- Claim C9, counterexample: invoking the search handler with the empty
string, a query whose trimmed form is empty, is not a no-op: because the
empty string is falsy, the handler falls back to the stored input hello,
performs a search request and overwrites the stored search results. -/
theorem handleSearch_empty_override_counterexample :
    isBlank "" = true ∧
    (handleSearchStep (some "") (Except.ok sampleResult) sampleUI).2 =
      true ∧
    (handleSearchStep (some "") (Except.ok sampleResult)
      sampleUI).1.searchResults = some sampleResult := by
  refine ⟨rfl, rfl, rfl⟩

/-- Claim C9, amended: whenever the effective query, that is the argument
unless it is empty or absent and the stored input otherwise, trims to
empty, the handler performs no search request and leaves the whole state
unchanged. -/
theorem handleSearch_blank_effective_noop (override : Option String)
    (outcome : Except String SearchResultModel) (st : SearchUIState)
    (h : isBlank (effectiveQuery override st) = true) :
    handleSearchStep override outcome st = (st, false) := by
  unfold handleSearchStep
  simp [h]

/-- Claim C9, witness: the no-op instantiated on a whitespace-only
argument. -/
theorem handleSearch_blank_noop_witness :
    isBlank (effectiveQuery (some " ") sampleUI) = true ∧
    handleSearchStep (some " ") (Except.ok sampleResult) sampleUI =
      (sampleUI, false) :=
  ⟨by decide, handleSearch_blank_effective_noop (some " ")
    (Except.ok sampleResult) sampleUI (by decide)⟩

/-- Claim C10: on API success the store delete keeps exactly the bookmarks
whose id differs, in their original order, and clears the error; on API
failure the bookmark list and the search results are unchanged and the
error message is recorded. -/
theorem storeDeleteBookmark_spec (bid : String) (st : StoreState) :
    (storeDeleteBookmark bid (Except.ok ()) st).bookmarks.Sublist
      st.bookmarks ∧
    (∀ b ∈ (storeDeleteBookmark bid (Except.ok ()) st).bookmarks,
        (b.id == bid) = false) ∧
    (∀ b ∈ st.bookmarks, (b.id == bid) = false →
        b ∈ (storeDeleteBookmark bid (Except.ok ()) st).bookmarks) ∧
    (storeDeleteBookmark bid (Except.ok ()) st).error = none ∧
    (storeDeleteBookmark bid (Except.ok ()) st).searchResults =
      st.searchResults ∧
    ∀ e, (storeDeleteBookmark bid (Except.error e) st).bookmarks =
        st.bookmarks ∧
      (storeDeleteBookmark bid (Except.error e) st).error = some e ∧
      (storeDeleteBookmark bid (Except.error e) st).searchResults =
        st.searchResults := by
  refine ⟨List.filter_sublist _, ?_, ?_, rfl, rfl,
    fun e => ⟨rfl, rfl, rfl⟩⟩
  · intro b hb
    simp only [storeDeleteBookmark, List.mem_filter] at hb
    simpa using hb.2
  · intro b hb h
    simp only [storeDeleteBookmark, List.mem_filter]
    exact ⟨hb, by simp [h]⟩

/-- Claim C10, witness: the delete behaviour instantiated on a concrete
store with two bookmarks, for a successful and for a failing API call. -/
theorem storeDeleteBookmark_witness :
    (storeDeleteBookmark "b1" (Except.ok ()) sampleStore).error = none ∧
    (storeDeleteBookmark "b1" (Except.error "boom") sampleStore).bookmarks =
      sampleStore.bookmarks :=
  ⟨(storeDeleteBookmark_spec "b1" sampleStore).2.2.2.1,
   ((storeDeleteBookmark_spec "b1" sampleStore).2.2.2.2.2 "boom").1⟩
